import Mathlib

/-!
Shallow embedding of the `context-realish` validation pipeline
(`context_realish/engine.py`, `schemas.py`, `rules.py`, `guardrails.py`)
and proofs about it.

Modelling conventions:
* Python values are modelled by the inductive `PyVal` (strings, ints,
  booleans, `None`, lists, tuples, and string-keyed dicts).  Dicts are
  insertion-ordered association lists, matching CPython semantics for the
  string-keyed dicts this program manipulates.
* Pure Python functions become Lean functions.  A collaborator function
  that would raise an exception is modelled as returning `Option.none`
  (the exception propagates out of `run`, uncaught, as the source
  documents).  The caller-supplied transform is modelled as
  `PyVal → Except String PyVal`, where `.error s` is a raised exception
  whose `str()` is `s`; the engine catches exactly these.
* The one piece of mutable state visible to the caller is the `request`
  dict object passed to `run`.  Following the explicit-state-passing
  translation of mutable arguments, `run` returns the contents of the
  caller's request object at the moment it returns, alongside the result.
  The body's sole operation on `request` is `request.copy()` (a read), so
  every return site of the translation carries `request` through
  unchanged; no other statement of the source writes to any object
  reachable from the caller's argument.
-/

/-- Model of the Python values this program manipulates: strings, integers,
booleans, `None`, lists, tuples, and string-keyed dicts (insertion-ordered
association lists). -/
inductive PyVal where
  | str (s : String)
  | int (n : Int)
  | bool (b : Bool)
  | none
  | list (xs : List PyVal)
  | tuple (xs : List PyVal)
  | dict (kvs : List (String × PyVal))
deriving Repr

/-- A Python dict with string keys: an insertion-ordered association list. -/
abbrev Dict := List (String × PyVal)

/-- `d.get(k)` / `d.get(k, None)`: `Option.none` when the key is absent.
A key stored with value `None` yields `some PyVal.none`. -/
def dictGet (d : Dict) (k : String) : Option PyVal :=
  (d.find? (fun kv => kv.1 = k)).map (fun kv => kv.2)

/-- `k in d`: key containment. -/
def dictHasKey (d : Dict) (k : String) : Bool :=
  (dictGet d k).isSome

/-- `d.get(k, default)`. -/
def dictGetD (d : Dict) (k : String) (default : PyVal) : PyVal :=
  (dictGet d k).getD default

/-- `d[k] = v`: update in place (keeping the key's position) when the key
exists, otherwise append at the end — CPython insertion-order semantics. -/
def dictSet (d : Dict) (k : String) (v : PyVal) : Dict :=
  if dictHasKey d k then
    d.map (fun kv => if kv.1 = k then (k, v) else kv)
  else
    d ++ [(k, v)]

/-- The apostrophe character, used by Python `repr` of strings and in
formatted messages. -/
def apos : String := String.mk [Char.ofNat 39]

/-- Python `repr` of a string, restricted to the quote-selection rule:
single quotes unless the string contains a single quote and no double
quote.  (Escape sequences beyond the quote characters are not needed by
any value this development evaluates.) -/
def pyReprStr (s : String) : String :=
  if s.data.contains (Char.ofNat 39) && !s.data.contains (Char.ofNat 34) then
    "\"" ++ s ++ "\""
  else
    apos ++ s ++ apos

mutual

/-- Python `repr` on `PyVal`. -/
def pyRepr : PyVal → String
  | .str s => pyReprStr s
  | .int n => toString n
  | .bool b => if b then "True" else "False"
  | .none => "None"
  | .list xs => "[" ++ String.intercalate ", " (pyReprList xs) ++ "]"
  | .tuple [x] => "(" ++ pyRepr x ++ ",)"
  | .tuple xs => "(" ++ String.intercalate ", " (pyReprList xs) ++ ")"
  | .dict kvs => "\x7b" ++ String.intercalate ", " (pyReprKVs kvs) ++ "\x7d"

/-- `repr` of each element of a list. -/
def pyReprList : List PyVal → List String
  | [] => []
  | x :: xs => pyRepr x :: pyReprList xs

/-- `repr` of each `key: value` entry of a dict. -/
def pyReprKVs : List (String × PyVal) → List String
  | [] => []
  | (k, v) :: kvs => (pyReprStr k ++ ": " ++ pyRepr v) :: pyReprKVs kvs

end

/-- Python `str()` coercion: identity on strings, `repr`-like rendering
otherwise (`str(True) = "True"`, `str(None) = "None"`, containers render
as their repr). -/
def pyStr : PyVal → String
  | .str s => s
  | v => pyRepr v

/-- Python truthiness, as used by `if enable_ai ...` and `if errors and
strict`. -/
def pyTruthy : PyVal → Bool
  | .str s => s ≠ ""
  | .int n => n ≠ 0
  | .bool b => b
  | .none => false
  | .list xs => !xs.isEmpty
  | .tuple xs => !xs.isEmpty
  | .dict kvs => !kvs.isEmpty

/-- Rendering of `type(v)`, as interpolated into the stage invoker's
unexpected-return message. -/
def pyTypeName : PyVal → String
  | .str _ => "<class " ++ apos ++ "str" ++ apos ++ ">"
  | .int _ => "<class " ++ apos ++ "int" ++ apos ++ ">"
  | .bool _ => "<class " ++ apos ++ "bool" ++ apos ++ ">"
  | .none => "<class " ++ apos ++ "NoneType" ++ apos ++ ">"
  | .list _ => "<class " ++ apos ++ "list" ++ apos ++ ">"
  | .tuple _ => "<class " ++ apos ++ "tuple" ++ apos ++ ">"
  | .dict _ => "<class " ++ apos ++ "dict" ++ apos ++ ">"

/-- `isinstance(v, dict)`. -/
def PyVal.isDict : PyVal → Bool
  | .dict _ => true
  | _ => false

/-- `v is None`. -/
def PyVal.isNone : PyVal → Bool
  | .none => true
  | _ => false

/-- Python `==` against a string literal (only strings compare equal to a
string). -/
def pyEqStr (v : PyVal) (s : String) : Bool :=
  match v with
  | .str t => t = s
  | _ => false

/-- Iterating a Python value with `for e in v` (used by the error
normalizer): lists and tuples yield elements, strings yield their
characters, dicts yield their keys; ints/bools/None are not iterable
(`Option.none` models the `TypeError` that propagates). -/
def pyElems : PyVal → Option (List PyVal)
  | .list xs => some xs
  | .tuple xs => some xs
  | .str s => some (s.data.map (fun c => .str (String.mk [c])))
  | .dict kvs => some (kvs.map (fun kv => .str kv.1))
  | _ => Option.none

/-- Python `str.strip()`: drop whitespace from both ends (structural, so
it evaluates inside the kernel). -/
def pyStrip (s : String) : String :=
  String.mk (((s.data.dropWhile Char.isWhitespace).reverse.dropWhile
    Char.isWhitespace).reverse)

/-- Python `str.lower()` (ASCII, structural). -/
def pyLower (s : String) : String :=
  String.mk (s.data.map Char.toLower)

/-- Python `text.replace(ch, " ")` for a single-character pattern, as the
guardrail tokenizer uses it (structural). -/
def pyReplaceCharWithSpace (c : Char) (s : String) : String :=
  String.mk (s.data.map (fun a => if a = c then ' ' else a))

/-- Worker for `pySplitWs`: accumulates the current word (reversed). -/
def pySplitWsAux : List Char → List Char → List String
  | [], acc => if acc.isEmpty then [] else [String.mk acc.reverse]
  | c :: cs, acc =>
    if c.isWhitespace then
      if acc.isEmpty then pySplitWsAux cs []
      else String.mk acc.reverse :: pySplitWsAux cs []
    else pySplitWsAux cs (c :: acc)

/-- Python `str.split()` with no argument: split on whitespace runs,
dropping empty pieces (structural). -/
def pySplitWs (s : String) : List String :=
  pySplitWsAux s.data []

/-- Python `sep.join(parts)` (structural). -/
def pyJoin (sep : String) : List String → String
  | [] => ""
  | [x] => x
  | x :: xs => x ++ sep ++ pyJoin sep xs

/-- Python `needle in haystack` on strings: substring containment. -/
def strIn (needle haystack : String) : Bool :=
  go needle.data haystack.data
where
  /-- Scans the haystack left to right for the needle. -/
  go (n : List Char) : List Char → Bool
    | [] => n.isEmpty
    | c :: t => n.isPrefixOf (c :: t) || go n t

namespace Schemas

/-- `schemas.ALLOWED_ROLES`. -/
def ALLOWED_ROLES : List String := ["user", "admin", "system"]

/-- `schemas.ALLOWED_ACTIONS`. -/
def ALLOWED_ACTIONS : List String := ["read", "ask", "summarize", "write", "delete", "export"]

/-- `schemas.REQUIRED_FIELDS`. -/
def REQUIRED_FIELDS : List String := ["action"]

/-- `schemas._err`: every call site passes string `code`/`message` and a
dict (or nothing) for `details`. -/
def err (code : String) (message : String) (details : Dict) : PyVal :=
  .dict [("code", .str code), ("message", .str message), ("details", .dict details)]

/-- `schemas._is_nonempty_string`. -/
def is_nonempty_string (x : PyVal) : Bool :=
  match x with
  | .str s => pyStrip s ≠ ""
  | _ => false

/-- The underlying string of a value already checked by
`is_nonempty_string` (the fallback is unreachable at its use sites). -/
def strOf : PyVal → String
  | .str s => s
  | _ => ""

/-- The optional string fields whose whitespace step 4 of
`validate_request` normalizes. -/
def OPTIONAL_TEXT_FIELDS : List String :=
  ["resource", "prompt", "input", "text", "message", "query", "content", "instruction"]

/-- Body of `schemas.validate_request` on a dict payload: returns the pair
`(normalized, errors)` the Python function returns. -/
def validate_request_impl (payload : Dict) : Dict × List PyVal :=
  let normalized := payload  -- normalized = payload.copy()
  -- 1) Required fields present
  let errors : List PyVal :=
    REQUIRED_FIELDS.foldl (fun errs field =>
      if !dictHasKey normalized field then
        errs ++ [err "missing_field" ("Missing required field: " ++ field)
          [("field", .str field), ("required_fields", .list (REQUIRED_FIELDS.map .str))]]
      else errs) []
  -- If required fields are missing, return early
  if !errors.isEmpty then (normalized, errors)
  else
    -- 2) Validate "action"
    let action := dictGetD normalized "action" .none
    let (normalized, errors) :=
      if !is_nonempty_string action then
        (normalized, errors ++ [err "invalid_action_type"
          ("Field " ++ apos ++ "action" ++ apos ++ " must be a non-empty string.")
          [("action", action)]])
      else
        let action_clean := pyLower (pyStrip (strOf action))
        let normalized := dictSet normalized "action" (.str action_clean)
        if !ALLOWED_ACTIONS.contains action_clean then
          (normalized, errors ++ [err "unknown_action" "Action is not recognized."
            [("action", .str action_clean), ("allowed_actions", .list (ALLOWED_ACTIONS.map .str))]])
        else (normalized, errors)
    -- 3) Validate "role" if provided
    let role := dictGetD normalized "role" .none
    let (normalized, errors) :=
      if role.isNone then (normalized, errors)
      else if !is_nonempty_string role then
        (normalized, errors ++ [err "invalid_role_type"
          ("Field " ++ apos ++ "role" ++ apos ++ " must be a non-empty string if provided.")
          [("role", role)]])
      else
        let role_clean := pyLower (pyStrip (strOf role))
        let normalized := dictSet normalized "role" (.str role_clean)
        if !ALLOWED_ROLES.contains role_clean then
          (normalized, errors ++ [err "unknown_role" "Role is not recognized."
            [("role", .str role_clean), ("allowed_roles", .list (ALLOWED_ROLES.map .str))]])
        else (normalized, errors)
    -- 4) Optional string fields: normalize whitespace
    let normalized := OPTIONAL_TEXT_FIELDS.foldl (fun n field =>
      match dictGet n field with
      | some (.str s) => dictSet n field (.str (pyStrip s))
      | _ => n) normalized
    -- 5) Add schema metadata
    let normalized := dictSet normalized "_schema"
      (.dict [("validated", .bool true), ("required_fields", .list (REQUIRED_FIELDS.map .str))])
    (normalized, errors)

/-- `schemas.validate_request` as the engine calls it.  A non-dict payload
would raise inside the function (uncaught by design), modelled as
`Option.none`; `run` only ever passes dicts to it. -/
def validate_request (payload : PyVal) : Option PyVal :=
  match payload with
  | .dict pd =>
    some (.tuple [.dict (validate_request_impl pd).1, .list (validate_request_impl pd).2])
  | _ => Option.none

end Schemas

namespace Rules

/-- `rules.ALLOWED_ROLES`. -/
def ALLOWED_ROLES : List String := ["user", "admin", "system"]

/-- `rules.ROLE_ACTIONS`. -/
def ROLE_ACTIONS : List (String × List String) :=
  [("user", ["read", "ask", "summarize"]),
   ("admin", ["read", "ask", "summarize", "write", "delete"]),
   ("system", ["read", "ask", "summarize"])]

/-- `ROLE_ACTIONS.get(role, [])`: a dict lookup keyed by strings — only a
string value equal to a key matches. -/
def roleActionsGet (role : PyVal) : List String :=
  ((ROLE_ACTIONS.find? (fun kv => pyEqStr role kv.1)).map (fun kv => kv.2)).getD []

/-- `rules._err`. -/
def err (code : String) (message : String) (details : Dict) : PyVal :=
  .dict [("code", .str code), ("message", .str message), ("details", .dict details)]

/-- Body of `rules.check_rules` on a dict payload: returns the pair
`(payload_or_normalized, errors)` the Python function returns. -/
def check_rules_impl (payload : Dict) : Dict × List PyVal :=
  let role := dictGetD payload "role" .none
  let action := dictGetD payload "action" .none
  let resource := dictGetD payload "resource" .none
  -- 1) Unknown role: stop early
  if !role.isNone && !(ALLOWED_ROLES.any (fun r => pyEqStr role r)) then
    (payload, [err "invalid_role" "Role is not allowed."
      [("role", role), ("allowed_roles", .list (ALLOWED_ROLES.map .str))]])
  else
    -- If role is missing, treat it as "user"
    let role := if role.isNone then .str "user" else role
    -- 2) Missing action
    if action.isNone then
      (payload, [err "missing_action" "Missing required field: action"
        [("required", .list [.str "action"]), ("example", .str "read")]])
    else
      -- 3) Action not allowed for role
      let allowed_actions := roleActionsGet role
      if !(allowed_actions.any (fun a => pyEqStr action a)) then
        (payload, [err "action_not_allowed" "Action is not allowed for this role."
          [("role", role), ("action", action),
           ("allowed_actions", .list (allowed_actions.map .str))]])
      -- 4) Only admin can delete
      else if pyEqStr action "delete" && !pyEqStr role "admin" then
        (payload, [err "delete_requires_admin" "Only admin can perform delete actions."
          [("role", role), ("action", action)]])
      -- 5) User cannot write to "system_config"
      else if pyEqStr action "write" && pyEqStr role "user" && pyEqStr resource "system_config" then
        (payload, [err "protected_resource" "Users cannot write to protected resources."
          [("role", role), ("action", action), ("resource", resource)]])
      else
        let normalized := payload  -- normalized = payload.copy()
        let normalized := dictSet normalized "role" role
        let normalized := dictSet normalized "_rules"
          (.dict [("checked", .bool true), ("role", role), ("action", action)])
        (normalized, [])

/-- `rules.check_rules` as the engine calls it (non-dict payloads would
raise, modelled as `Option.none`; unreachable from `run`). -/
def check_rules (payload : PyVal) : Option PyVal :=
  match payload with
  | .dict pd =>
    some (.tuple [.dict (check_rules_impl pd).1, .list (check_rules_impl pd).2])
  | _ => Option.none

end Rules

namespace Guardrails

/-- `guardrails.MAX_TEXT_LEN`. -/
def MAX_TEXT_LEN : Nat := 2000

/-- `guardrails.MAX_LIST_ITEMS`. -/
def MAX_LIST_ITEMS : Nat := 50

/-- `guardrails.BANNED_PHRASES`, in source order. -/
def BANNED_PHRASES : List String :=
  ["kill myself", "end my life", "hurt myself", "self harm", "self-harm", "suicide",
   "make a bomb", "build a bomb", "how to make a bomb", "how to build a bomb",
   "homemade explosive",
   "steal password", "steal my password", "hack an account", "bypass login",
   "phishing link", "credential stuffing", "sql injection", "cross site scripting",
   "xss attack", "write malware", "make malware", "ransomware", "keylogger"]

/-- `guardrails.BANNED_WORDS` (a set; only membership is observed). -/
def BANNED_WORDS : List String :=
  ["suicide", "selfharm",
   "bomb", "explosive", "weapon", "gun", "ammo",
   "phishing", "keylogger", "malware", "ransomware", "ddos", "botnet", "backdoor",
   "hack", "hacking", "crack", "cracker",
   "scam", "fraud"]

/-- `guardrails._err`. -/
def err (code : String) (message : String) (details : Dict) : PyVal :=
  .dict [("code", .str code), ("message", .str message), ("details", .dict details)]

/-- The fields `_collect_text` reads, in source order. -/
def TEXT_FIELDS : List String :=
  ["prompt", "input", "text", "message", "query", "content", "instruction"]

/-- `guardrails._collect_text`. -/
def collect_text (payload : Dict) : String :=
  let parts := TEXT_FIELDS.foldl (fun parts f =>
    let value := dictGetD payload f .none
    if value.isNone then parts else parts ++ [pyStr value]) []
  pyStrip (pyJoin "\n" parts)

/-- The punctuation characters `_to_words` replaces with spaces, in source
order. -/
def PUNCT : List Char :=
  ['.', ',', '!', '?', ':', ';', '(', ')', '[', ']', '\x7b', '\x7d', '\"',
   Char.ofNat 39, '/', '\\', '-', '_']

/-- `guardrails._to_words`: lowercase, replace punctuation with spaces,
split on whitespace (Python `str.split()` drops empty pieces). -/
def to_words (text : String) : List String :=
  let text := pyLower text
  let text := PUNCT.foldl (fun t ch => pyReplaceCharWithSpace ch t) text
  pySplitWs text

/-- Body of `guardrails.check_guardrails` on a dict payload: returns the
pair `(guarded_payload, errors)` the Python function returns. -/
def check_guardrails_impl (payload : Dict) : Dict × List PyVal :=
  let combined_text := pyLower (collect_text payload)
  -- 1) Length guardrail
  let errors : List PyVal :=
    if combined_text.length > MAX_TEXT_LEN then
      [err "too_long" ("Input text is too long (max " ++ toString MAX_TEXT_LEN ++ " chars).")
        [("length", .int combined_text.length), ("max_len", .int MAX_TEXT_LEN)]]
    else []
  -- 2A) Banned phrase scan: stop on first match
  let errors := errors ++
    (match BANNED_PHRASES.find? (fun phrase => strIn phrase combined_text) with
     | some phrase =>
       [err "banned_content" "Request appears to include disallowed/unsafe content."
         [("matched", .str phrase), ("type", .str "phrase")]]
     | Option.none => [])
  -- 2B) Banned word scan, only when no errors so far: stop on first match
  let errors :=
    if errors.isEmpty then
      match (to_words combined_text).find? (fun w => BANNED_WORDS.contains w) with
      | some w =>
        [err "banned_content" "Request appears to include disallowed/unsafe content."
          [("matched", .str w), ("type", .str "word")]]
      | Option.none => []
    else errors
  -- 3) Large list fields check (no early stop)
  let errors := errors ++ payload.foldl (fun acc kv =>
    match kv.2 with
    | .list xs =>
      if xs.length > MAX_LIST_ITEMS then
        acc ++ [err "too_many_items"
          ("Field " ++ apos ++ kv.1 ++ apos ++ " has too many items (max " ++
            toString MAX_LIST_ITEMS ++ ").")
          [("field", .str kv.1), ("count", .int xs.length), ("max_items", .int MAX_LIST_ITEMS)]]
      else acc
    | _ => acc) []
  -- Metadata for observability; guarded_payload = payload.copy()
  let guarded_payload := dictSet payload "_guardrails"
    (.dict [("scanned_chars", .int combined_text.length), ("errors", .int errors.length)])
  (guarded_payload, errors)

/-- `guardrails.check_guardrails` as the engine calls it (non-dict
payloads would raise, modelled as `Option.none`; unreachable from `run`). -/
def check_guardrails (payload : PyVal) : Option PyVal :=
  match payload with
  | .dict pd =>
    some (.tuple [.dict (check_guardrails_impl pd).1, .list (check_guardrails_impl pd).2])
  | _ => Option.none

end Guardrails

/-- A Python module as the stage invoker sees it: its `__name__` and the
callable attributes relevant to the candidate names (`getattr` on any
other name yields `None`).  An attribute maps a payload to the returned
value, or to `Option.none` when the call raises (the stage invoker does
not catch; the exception propagates). -/
structure PyModule where
  name : String
  attrs : List (String × (PyVal → Option PyVal))

/-- `getattr(module, name, None)` restricted to the callable attributes. -/
def PyModule.getattr (m : PyModule) (attr : String) : Option (PyVal → Option PyVal) :=
  (m.attrs.find? (fun a => a.1 = attr)).map (fun a => a.2)

namespace Engine

/-- Canonical error record `{"code": ..., "message": ..., "details": ...}`
produced by `_normalize_errors`; `code` and `message` have been coerced to
strings, `details` is whatever value was attached (usually a dict). -/
structure ErrorRecord where
  code : String
  message : String
  details : PyVal
deriving Repr

/-- Trace entry `{"step": ..., "ok": ..., "info": ...}`. -/
structure TraceEntry where
  step : String
  ok : Bool
  info : Dict
deriving Repr

/-- The result dict `run` returns. -/
structure Result where
  ok : Bool
  data : Option PyVal
  errors : List ErrorRecord
  trace : List TraceEntry
deriving Repr

/-- `engine._step_trace` (the engine always passes `info` explicitly). -/
def step_trace (step : String) (ok : Bool) (info : Dict) : TraceEntry :=
  { step := step, ok := ok, info := info }

/-- The dict `_normalize_errors` synthesizes for a structured entry with no
explicit `details` key: every other key/value except `code`/`message`,
inserted in iteration order. -/
def details_from_extras (e : Dict) : Dict :=
  e.foldl (fun details kv =>
    if kv.1 = "code" ∨ kv.1 = "message" then details
    else dictSet details kv.1 kv.2) []

/-- The loop body of `engine._normalize_errors`: one raw error element to
one canonical record. -/
def normalize_one (default_code step_name : String) (e : PyVal) : ErrorRecord :=
  match e with
  | .dict ed =>
    let code := (dictGet ed "code").getD (.str default_code)
    let message := (dictGet ed "message").getD (.str "Error")
    let details :=
      if dictHasKey ed "details" then dictGetD ed "details" .none
      else .dict (details_from_extras ed)
    { code := pyStr code, message := pyStr message, details := details }
  | _ =>
    { code := default_code, message := pyStr e, details := .dict [("step", .str step_name)] }

/-- `engine._normalize_errors`.  `raw_errors` may be any Python value: a
`None` yields the empty list, otherwise the value is iterated
(`Option.none` models the `TypeError` on a non-iterable, which would
propagate). -/
def normalize_errors (raw_errors : PyVal) (default_code step_name : String) :
    Option (List ErrorRecord) :=
  match raw_errors with
  | .none => some []
  | raw => (pyElems raw).map (fun es => es.map (normalize_one default_code step_name))

/-- The synthetic message for an unexpected return shape: the f-string
interpolating the module's dunder name, the resolved function name, and
`type(out)`. -/
def unexpected_message (mod : PyModule) (fname : String) (out : PyVal) : String :=
  "Unexpected return type from " ++ mod.name ++ "." ++ fname ++ ": " ++ pyTypeName out

/-- The shape interpretation inside `engine._call_layer`: from the raw
return value `out` to `(new_payload, raw_errors)`, following the source's
`isinstance` chain — a two-element tuple, a list, a dict, `None`, and the
catch-all. -/
def interpret_out (mod : PyModule) (fname : String) (out : PyVal) : Option PyVal × PyVal :=
  match out with
  | .tuple [a, b] => (some a, b)
  | .list xs => (Option.none, .list xs)
  | .dict kvs => (some (.dict kvs), .list [])
  | .none => (Option.none, .list [])
  | other => (Option.none, .list [.str (unexpected_message mod fname other)])

/-- `engine._call_layer`: scan the candidate names in order, call the
first attribute found, interpret its return value, normalize the errors.
The outer `Option.none` models an exception propagating out (either the
collaborator raising, or `_normalize_errors` iterating a non-iterable). -/
def call_layer (mod : PyModule) : List String → PyVal →
    Option (Option PyVal × List ErrorRecord × Dict)
  | [], _ =>
    some (Option.none, [], [("called", PyVal.none), ("note", .str "no matching function found")])
  | fname :: rest, payload =>
    match mod.getattr fname with
    | Option.none => call_layer mod rest payload
    | some fn =>
      (fn payload).bind (fun out =>
        let (new_payload, raw_errors) := interpret_out mod fname out
        (normalize_errors raw_errors "layer_error" fname).map (fun errors =>
          (new_payload, errors, [("called", PyVal.str fname)])))

/-- The record the orchestrator appends for each blocking error:
`{"code": <stage code>, "message": e["message"], "details": e["details"]}`. -/
def block_error (code : String) (e : ErrorRecord) : ErrorRecord :=
  { code := code, message := e.message, details := e.details }

/-- A caller-supplied transform: either returns a value or raises an
exception whose `str()` is the given message.  (Modelled as a pure
function: deterministic and side-effect free, per the transform
contract.) -/
abbrev AiFun := PyVal → Except String PyVal

/-- The `schemas` module object as `run` imports it: `validate` and
`schema_validate` are aliases of `validate_request`. -/
def schemasModule : PyModule :=
  { name := "context_realish.schemas",
    attrs := [("validate_request", Schemas.validate_request),
              ("validate", Schemas.validate_request),
              ("schema_validate", Schemas.validate_request)] }

/-- The `rules` module object: `apply_rules` aliases `check_rules`. -/
def rulesModule : PyModule :=
  { name := "context_realish.rules",
    attrs := [("check_rules", Rules.check_rules),
              ("apply_rules", Rules.check_rules)] }

/-- The `guardrails` module object: `enforce_guardrails` aliases
`check_guardrails`. -/
def guardrailsModule : PyModule :=
  { name := "context_realish.guardrails",
    attrs := [("check_guardrails", Guardrails.check_guardrails),
              ("enforce_guardrails", Guardrails.check_guardrails)] }

/-- Candidate entry-point names for the schema stage. -/
def schemaNames : List String := ["validate_request", "validate", "schema_validate"]

/-- Candidate entry-point names for the rules stage. -/
def ruleNames : List String := ["check_rules", "apply_rules", "evaluate_rules", "validate_rules"]

/-- Candidate entry-point names for the guardrails stage. -/
def guardrailNames : List String := ["check_guardrails", "enforce_guardrails", "guardrail_check"]

/-- `engine.run`.  Returns `Option.none` when an exception would propagate
out of `run` uncaught; otherwise `some (request_after, result)`, where
`request_after` is the contents of the caller's request object when `run`
returns (state-passing translation of the mutable argument: the body's
only operation on `request` is `request.copy()`, so every return site
carries it unchanged). -/
def run (request : Dict) (ai_fn : Option AiFun) (config : Option Dict) :
    Option (Dict × Result) :=
  let config := config.getD []
  let enable_ai := dictGetD config "enable_ai" (.bool false)
  let strict := dictGetD config "strict" (.bool true)
  let payload : PyVal := .dict request  -- payload = request.copy()
  -- 1) Schema
  match call_layer schemasModule schemaNames payload with
  | Option.none => Option.none
  | some (new_payload, errors, meta) =>
    let payload := new_payload.getD payload
    let trace := [step_trace "schema" errors.isEmpty meta]
    if !errors.isEmpty then
      -- schema errors always block
      some (request,
        { ok := false, data := some payload,
          errors := errors.map (block_error "schema_error"), trace := trace })
    else
      -- 2) Rules
      match call_layer rulesModule ruleNames payload with
      | Option.none => Option.none
      | some (new_payload, errors, meta) =>
        let payload := new_payload.getD payload
        let trace := trace ++ [step_trace "rules" errors.isEmpty meta]
        if !errors.isEmpty && pyTruthy strict then
          some (request,
            { ok := false, data := some payload,
              errors := errors.map (block_error "rule_violation"), trace := trace })
        else
          -- 3) Guardrails
          match call_layer guardrailsModule guardrailNames payload with
          | Option.none => Option.none
          | some (new_payload, errors, meta) =>
            let payload := new_payload.getD payload
            let trace := trace ++ [step_trace "guardrails" errors.isEmpty meta]
            if !errors.isEmpty then
              some (request,
                { ok := false, data := some payload,
                  errors := errors.map (block_error "guardrail_block"), trace := trace })
            else
              -- 4) Optional AI step: if enable_ai and ai_fn is not None
              match ai_fn, pyTruthy enable_ai with
              | some f, true =>
                (match f payload with
                 | .ok ai_out =>
                   if ai_out.isDict then
                     -- success with the transform's payload
                     some (request,
                       { ok := true, data := some ai_out, errors := [],
                         trace := trace ++ [step_trace "ai" true [("called", .bool true)]] })
                   else
                     -- raise TypeError("ai_fn must return a dict"), caught below
                     some (request,
                       { ok := false, data := some payload,
                         errors := [{ code := "ai_error",
                                      message := "ai_fn must return a dict",
                                      details := .dict [] }],
                         trace := trace ++ [step_trace "ai" false [("called", .bool true)]] })
                 | .error ex =>
                   some (request,
                     { ok := false, data := some payload,
                       errors := [{ code := "ai_error", message := ex, details := .dict [] }],
                       trace := trace ++ [step_trace "ai" false [("called", .bool true)]] }))
              | _, _ =>
                -- AI intentionally skipped
                some (request,
                  { ok := true, data := some payload, errors := [],
                    trace := trace ++ [step_trace "ai" true [("called", .bool false)]] })

end Engine

namespace Engine

/-- The normalized payload the schema stage hands back for a given request
(the engine adopts it as the working payload). -/
def payloadAfterSchema (req : Dict) : Dict := (Schemas.validate_request_impl req).1

/-- The raw error list the schema stage returns for a given request. -/
def schemaRawErrors (req : Dict) : List PyVal := (Schemas.validate_request_impl req).2

/-- The payload the rules stage hands back (fed the schema stage's
payload). -/
def payloadAfterRules (req : Dict) : Dict := (Rules.check_rules_impl (payloadAfterSchema req)).1

/-- The raw error list the rules stage returns. -/
def rulesRawErrors (req : Dict) : List PyVal := (Rules.check_rules_impl (payloadAfterSchema req)).2

/-- The payload the guardrails stage hands back (fed the rules stage's
payload). -/
def payloadAfterGuardrails (req : Dict) : Dict :=
  (Guardrails.check_guardrails_impl (payloadAfterRules req)).1

/-- The raw error list the guardrails stage returns. -/
def guardrailsRawErrors (req : Dict) : List PyVal :=
  (Guardrails.check_guardrails_impl (payloadAfterRules req)).2

/-- `config.get("strict", True)` for an optional config argument. -/
def strictCfg (config : Option Dict) : PyVal := dictGetD (config.getD []) "strict" (.bool true)

/-- `config.get("enable_ai", False)` for an optional config argument. -/
def enableAiCfg (config : Option Dict) : PyVal :=
  dictGetD (config.getD []) "enable_ai" (.bool false)

/-- The schema-stage error records as they appear in a blocked result. -/
def schemaErrors (req : Dict) : List ErrorRecord :=
  ((schemaRawErrors req).map (normalize_one "layer_error" "validate_request")).map
    (block_error "schema_error")

/-- The rules-stage error records as they appear in a blocked result. -/
def ruleErrors (req : Dict) : List ErrorRecord :=
  ((rulesRawErrors req).map (normalize_one "layer_error" "check_rules")).map
    (block_error "rule_violation")

/-- The guardrails-stage error records as they appear in a blocked result. -/
def guardErrors (req : Dict) : List ErrorRecord :=
  ((guardrailsRawErrors req).map (normalize_one "layer_error" "check_guardrails")).map
    (block_error "guardrail_block")

/-- The payload current at `run`'s point of termination (success or the
blocking failure), recomputed from the stage functions.  Used to state the
`data` clause of the Result invariant. -/
def terminal_payload (req : Dict) (ai_fn : Option AiFun) (config : Option Dict) : PyVal :=
  if !(schemaRawErrors req).isEmpty then .dict (payloadAfterSchema req)
  else if !(rulesRawErrors req).isEmpty && pyTruthy (strictCfg config) then
    .dict (payloadAfterRules req)
  else if !(guardrailsRawErrors req).isEmpty then .dict (payloadAfterGuardrails req)
  else
    match ai_fn, pyTruthy (enableAiCfg config) with
    | some f, true =>
      match f (.dict (payloadAfterGuardrails req)) with
      | .ok v => if v.isDict then v else .dict (payloadAfterGuardrails req)
      | .error _ => .dict (payloadAfterGuardrails req)
    | _, _ => .dict (payloadAfterGuardrails req)

end Engine

/-- The five-shape contract of the stage invoker, in the claim's terms:
how the raw return value `out` determines `(new_payload, raw_errors)`,
with shapes checked in the source's priority order (a two-element tuple,
a list — the "sequence" of the spec's vocabulary —, a mapping, `None`,
and the catch-all synthetic error).  The guards make the five cases
mutually exclusive. -/
def interp_shape_spec (mod : PyModule) (fname : String) (out : PyVal)
    (np : Option PyVal) (raw : PyVal) : Prop :=
  (∃ a b, out = .tuple [a, b] ∧ np = some a ∧ raw = b)
  ∨ ((∀ a b, out ≠ .tuple [a, b]) ∧ ∃ xs, out = .list xs ∧ np = Option.none ∧ raw = .list xs)
  ∨ (∃ kvs, out = .dict kvs ∧ np = some out ∧ raw = .list [])
  ∨ (out = .none ∧ np = Option.none ∧ raw = .list [])
  ∨ ((∀ a b, out ≠ .tuple [a, b]) ∧ (∀ xs, out ≠ .list xs) ∧ (∀ kvs, out ≠ .dict kvs) ∧
      out ≠ .none ∧ np = Option.none ∧
      raw = .list [.str (Engine.unexpected_message mod fname out)])

namespace Engine

/-- Fixture used by witnesses: the Result `run` returns for the empty
request (the schema stage blocks on the missing `action` field). -/
def emptyRequestResult : Result :=
  { ok := false, data := some (.dict []),
    errors := [{ code := "schema_error", message := "Missing required field: action",
                 details := .dict [("field", .str "action"),
                   ("required_fields", .list [.str "action"])] }],
    trace := [{ step := "schema", ok := false,
                info := [("called", .str "validate_request")] }] }

end Engine

/-! ## Theorems -/

open Engine

/-- Mapping preserves emptiness. -/
theorem isEmptyMap {α β : Type} (f : α → β) (l : List α) : (l.map f).isEmpty = l.isEmpty := by
  cases l <;> rfl

/-- The schema stage call resolves `validate_request` and interprets its
`(normalized, errors)` tuple. -/
theorem call_layer_schemas (pd : Dict) :
    call_layer schemasModule schemaNames (.dict pd) =
      some (some (.dict (Schemas.validate_request_impl pd).1),
        ((Schemas.validate_request_impl pd).2).map (normalize_one "layer_error" "validate_request"),
        [("called", .str "validate_request")]) := rfl

/-- The rules stage call resolves `check_rules` and interprets its
`(payload, errors)` tuple. -/
theorem call_layer_rules (pd : Dict) :
    call_layer rulesModule ruleNames (.dict pd) =
      some (some (.dict (Rules.check_rules_impl pd).1),
        ((Rules.check_rules_impl pd).2).map (normalize_one "layer_error" "check_rules"),
        [("called", .str "check_rules")]) := rfl

/-- The guardrails stage call resolves `check_guardrails` and interprets
its `(guarded_payload, errors)` tuple. -/
theorem call_layer_guardrails (pd : Dict) :
    call_layer guardrailsModule guardrailNames (.dict pd) =
      some (some (.dict (Guardrails.check_guardrails_impl pd).1),
        ((Guardrails.check_guardrails_impl pd).2).map
          (normalize_one "layer_error" "check_guardrails"),
        [("called", .str "check_guardrails")]) := rfl


/-- Full characterization of `run` on the concrete collaborator modules:
the request object comes back unchanged and the result is determined by
the three stage outcomes, the configuration flags and the transform. -/
theorem run_unfold (req : Dict) (aifn : Option AiFun) (cfg : Option Dict) :
    run req aifn cfg =
      (if !(schemaRawErrors req).isEmpty then
        some (req,
          { ok := false, data := some (.dict (payloadAfterSchema req)),
            errors := schemaErrors req,
            trace := [step_trace "schema" (schemaRawErrors req).isEmpty
              [("called", .str "validate_request")]] })
      else if !(rulesRawErrors req).isEmpty && pyTruthy (strictCfg cfg) then
        some (req,
          { ok := false, data := some (.dict (payloadAfterRules req)),
            errors := ruleErrors req,
            trace := [step_trace "schema" (schemaRawErrors req).isEmpty
                [("called", .str "validate_request")],
              step_trace "rules" (rulesRawErrors req).isEmpty [("called", .str "check_rules")]] })
      else if !(guardrailsRawErrors req).isEmpty then
        some (req,
          { ok := false, data := some (.dict (payloadAfterGuardrails req)),
            errors := guardErrors req,
            trace := [step_trace "schema" (schemaRawErrors req).isEmpty
                [("called", .str "validate_request")],
              step_trace "rules" (rulesRawErrors req).isEmpty [("called", .str "check_rules")],
              step_trace "guardrails" (guardrailsRawErrors req).isEmpty
                [("called", .str "check_guardrails")]] })
      else
        match aifn, pyTruthy (enableAiCfg cfg) with
        | some f, true =>
          match f (.dict (payloadAfterGuardrails req)) with
          | .ok v =>
            if v.isDict then
              some (req,
                { ok := true, data := some v, errors := [],
                  trace := [step_trace "schema" (schemaRawErrors req).isEmpty
                      [("called", .str "validate_request")],
                    step_trace "rules" (rulesRawErrors req).isEmpty
                      [("called", .str "check_rules")],
                    step_trace "guardrails" (guardrailsRawErrors req).isEmpty
                      [("called", .str "check_guardrails")],
                    step_trace "ai" true [("called", .bool true)]] })
            else
              some (req,
                { ok := false, data := some (.dict (payloadAfterGuardrails req)),
                  errors := [{ code := "ai_error", message := "ai_fn must return a dict",
                               details := .dict [] }],
                  trace := [step_trace "schema" (schemaRawErrors req).isEmpty
                      [("called", .str "validate_request")],
                    step_trace "rules" (rulesRawErrors req).isEmpty
                      [("called", .str "check_rules")],
                    step_trace "guardrails" (guardrailsRawErrors req).isEmpty
                      [("called", .str "check_guardrails")],
                    step_trace "ai" false [("called", .bool true)]] })
          | .error ex =>
            some (req,
              { ok := false, data := some (.dict (payloadAfterGuardrails req)),
                errors := [{ code := "ai_error", message := ex, details := .dict [] }],
                trace := [step_trace "schema" (schemaRawErrors req).isEmpty
                    [("called", .str "validate_request")],
                  step_trace "rules" (rulesRawErrors req).isEmpty
                    [("called", .str "check_rules")],
                  step_trace "guardrails" (guardrailsRawErrors req).isEmpty
                    [("called", .str "check_guardrails")],
                  step_trace "ai" false [("called", .bool true)]] })
        | _, _ =>
          some (req,
            { ok := true, data := some (.dict (payloadAfterGuardrails req)), errors := [],
              trace := [step_trace "schema" (schemaRawErrors req).isEmpty
                  [("called", .str "validate_request")],
                step_trace "rules" (rulesRawErrors req).isEmpty [("called", .str "check_rules")],
                step_trace "guardrails" (guardrailsRawErrors req).isEmpty
                  [("called", .str "check_guardrails")],
                step_trace "ai" true [("called", .bool false)]] })) := by
  unfold run
  simp only [call_layer_schemas, call_layer_rules, call_layer_guardrails, Option.getD_some,
    isEmptyMap, schemaErrors, ruleErrors, guardErrors, payloadAfterSchema, payloadAfterRules,
    payloadAfterGuardrails, schemaRawErrors, rulesRawErrors, guardrailsRawErrors, strictCfg,
    enableAiCfg, List.cons_append, List.nil_append, List.singleton_append]

/-- A list's `isEmpty` is `true` exactly when it is nil. -/
theorem isEmptyTrue {α : Type} (l : List α) : l.isEmpty = true ↔ l = [] := by
  cases l <;> simp

/-- A list's `isEmpty` is `false` exactly when it is non-nil. -/
theorem isEmptyFalse {α : Type} (l : List α) : l.isEmpty = false ↔ l ≠ [] := by
  cases l <;> simp

/-- Concrete stage outcomes for the witnesses' inputs, proved while the
stage implementations are still reducible. -/
theorem schemaRaw_read : schemaRawErrors [("action", PyVal.str "read")] = [] := rfl

/-- The rules stage passes the witness read request. -/
theorem rulesRaw_read : rulesRawErrors [("action", PyVal.str "read")] = [] := rfl

/-- The guardrails stage passes the witness read request. -/
theorem guardRaw_read : guardrailsRawErrors [("action", PyVal.str "read")] = [] := rfl

/-- The schema stage passes the witness delete request. -/
theorem schemaRaw_delete : schemaRawErrors [("role", PyVal.str "user"),
    ("action", PyVal.str "delete"), ("prompt", PyVal.str "hello")] = [] := rfl

/-- The rules stage flags the witness delete request. -/
theorem rulesRaw_delete : (rulesRawErrors [("role", PyVal.str "user"),
    ("action", PyVal.str "delete"), ("prompt", PyVal.str "hello")]).isEmpty = false := rfl

/-- The guardrails stage passes the witness delete request. -/
theorem guardRaw_delete : guardrailsRawErrors [("role", PyVal.str "user"),
    ("action", PyVal.str "delete"), ("prompt", PyVal.str "hello")] = [] := rfl

/-- Running the empty request blocks at the schema stage with the
`emptyRequestResult` fixture. -/
theorem run_empty_request : run [] Option.none Option.none = some ([], emptyRequestResult) := rfl

attribute [irreducible] Schemas.validate_request_impl Rules.check_rules_impl
  Guardrails.check_guardrails_impl

/-- Exhaustive enumeration of the six ways a `run` can terminate:
blocked at schema, blocked at rules (strict), blocked at guardrails,
transform succeeded, transform failed, or AI skipped. -/
theorem run_scenarios (req : Dict) (aifn : Option AiFun) (cfg : Option Dict) :
    ∃ r, run req aifn cfg = some (req, r) ∧
      ((schemaRawErrors req ≠ [] ∧
        r = { ok := false, data := some (.dict (payloadAfterSchema req)),
              errors := schemaErrors req,
              trace := [step_trace "schema" false [("called", .str "validate_request")]] })
      ∨ (schemaRawErrors req = [] ∧ rulesRawErrors req ≠ [] ∧ pyTruthy (strictCfg cfg) = true ∧
        r = { ok := false, data := some (.dict (payloadAfterRules req)),
              errors := ruleErrors req,
              trace := [step_trace "schema" true [("called", .str "validate_request")],
                        step_trace "rules" false [("called", .str "check_rules")]] })
      ∨ (schemaRawErrors req = [] ∧ (rulesRawErrors req = [] ∨ pyTruthy (strictCfg cfg) = false) ∧
        guardrailsRawErrors req ≠ [] ∧
        r = { ok := false, data := some (.dict (payloadAfterGuardrails req)),
              errors := guardErrors req,
              trace := [step_trace "schema" true [("called", .str "validate_request")],
                        step_trace "rules" (rulesRawErrors req).isEmpty
                          [("called", .str "check_rules")],
                        step_trace "guardrails" false [("called", .str "check_guardrails")]] })
      ∨ (schemaRawErrors req = [] ∧ (rulesRawErrors req = [] ∨ pyTruthy (strictCfg cfg) = false) ∧
        guardrailsRawErrors req = [] ∧
        (∃ f v, aifn = some f ∧ pyTruthy (enableAiCfg cfg) = true ∧
          f (.dict (payloadAfterGuardrails req)) = .ok v ∧ v.isDict = true ∧
          r = { ok := true, data := some v, errors := [],
                trace := [step_trace "schema" true [("called", .str "validate_request")],
                          step_trace "rules" (rulesRawErrors req).isEmpty
                            [("called", .str "check_rules")],
                          step_trace "guardrails" true [("called", .str "check_guardrails")],
                          step_trace "ai" true [("called", .bool true)]] }))
      ∨ (schemaRawErrors req = [] ∧ (rulesRawErrors req = [] ∨ pyTruthy (strictCfg cfg) = false) ∧
        guardrailsRawErrors req = [] ∧
        (∃ f msg, aifn = some f ∧ pyTruthy (enableAiCfg cfg) = true ∧
          ((∃ v, f (.dict (payloadAfterGuardrails req)) = .ok v ∧ v.isDict = false ∧
              msg = "ai_fn must return a dict")
           ∨ f (.dict (payloadAfterGuardrails req)) = .error msg) ∧
          r = { ok := false, data := some (.dict (payloadAfterGuardrails req)),
                errors := [{ code := "ai_error", message := msg, details := .dict [] }],
                trace := [step_trace "schema" true [("called", .str "validate_request")],
                          step_trace "rules" (rulesRawErrors req).isEmpty
                            [("called", .str "check_rules")],
                          step_trace "guardrails" true [("called", .str "check_guardrails")],
                          step_trace "ai" false [("called", .bool true)]] }))
      ∨ (schemaRawErrors req = [] ∧ (rulesRawErrors req = [] ∨ pyTruthy (strictCfg cfg) = false) ∧
        guardrailsRawErrors req = [] ∧
        (aifn = Option.none ∨ pyTruthy (enableAiCfg cfg) = false) ∧
        r = { ok := true, data := some (.dict (payloadAfterGuardrails req)), errors := [],
              trace := [step_trace "schema" true [("called", .str "validate_request")],
                        step_trace "rules" (rulesRawErrors req).isEmpty
                          [("called", .str "check_rules")],
                        step_trace "guardrails" true [("called", .str "check_guardrails")],
                        step_trace "ai" true [("called", .bool false)]] })) := by
  rw [run_unfold]
  by_cases h1 : schemaRawErrors req = []
  case neg =>
    have e1f : (schemaRawErrors req).isEmpty = false := (isEmptyFalse _).mpr h1
    rw [e1f]
    simp only [Bool.not_true, Bool.not_false, Bool.false_and, Bool.true_and, Bool.and_false,
      Bool.and_true, eq_self_iff_true, Bool.false_eq_true, if_true, if_false]
    refine ⟨_, rfl, Or.inl ⟨?_, ?_⟩⟩ <;> first | rfl | exact h1
  case pos =>
    have e1t : (schemaRawErrors req).isEmpty = true := (isEmptyTrue _).mpr h1
    by_cases h2 : rulesRawErrors req = []
    case pos =>
      have e2t : (rulesRawErrors req).isEmpty = true := (isEmptyTrue _).mpr h2
      by_cases h3 : guardrailsRawErrors req = []
      case neg =>
        have e3f : (guardrailsRawErrors req).isEmpty = false := (isEmptyFalse _).mpr h3
        rw [e1t, e2t, e3f]
        simp only [Bool.not_true, Bool.not_false, Bool.false_and, Bool.true_and, Bool.and_false,
          Bool.and_true, eq_self_iff_true, Bool.false_eq_true, if_true, if_false]
        refine ⟨_, rfl, Or.inr (Or.inr (Or.inl ⟨?_, Or.inl ?_, ?_, ?_⟩))⟩ <;>
          first | rfl | exact h1 | exact h2 | exact h3
      case pos =>
        have e3t : (guardrailsRawErrors req).isEmpty = true := (isEmptyTrue _).mpr h3
        rw [e1t, e2t, e3t]
        cases aifn with
        | none =>
          simp only [Bool.not_true, Bool.not_false, Bool.false_and, Bool.true_and, Bool.and_false,
            Bool.and_true, eq_self_iff_true, Bool.false_eq_true, if_true, if_false]
          refine ⟨_, rfl, Or.inr (Or.inr (Or.inr (Or.inr (Or.inr
            ⟨?_, Or.inl ?_, ?_, Or.inl ?_, ?_⟩))))⟩ <;>
            first | rfl | trivial | exact h1 | exact h2 | exact h3
        | some f =>
          cases hE : pyTruthy (enableAiCfg cfg) with
          | false =>
            simp only [Bool.not_true, Bool.not_false, Bool.false_and, Bool.true_and,
              Bool.and_false, Bool.and_true, eq_self_iff_true, Bool.false_eq_true, if_true,
              if_false]
            refine ⟨_, rfl, Or.inr (Or.inr (Or.inr (Or.inr (Or.inr
              ⟨?_, Or.inl ?_, ?_, Or.inr ?_, ?_⟩))))⟩ <;>
              first | rfl | trivial | exact h1 | exact h2 | exact h3
          | true =>
            simp only [Bool.not_true, Bool.not_false, Bool.false_and, Bool.true_and,
              Bool.and_false, Bool.and_true, eq_self_iff_true, Bool.false_eq_true, if_true,
              if_false]
            cases hf : f (.dict (payloadAfterGuardrails req)) with
            | ok v =>
              simp only [eq_self_iff_true, Bool.false_eq_true, if_true, if_false]
              cases hd : v.isDict with
              | true =>
                simp only [eq_self_iff_true, Bool.false_eq_true, if_true, if_false]
                refine ⟨_, rfl, Or.inr (Or.inr (Or.inr (Or.inl
                  ⟨?_, Or.inl ?_, ?_, f, v, ?_, ?_, ?_, ?_, ?_⟩)))⟩ <;>
                  first | rfl | trivial | exact h1 | exact h2 | exact h3 | exact hf | exact hd
              | false =>
                simp only [eq_self_iff_true, Bool.false_eq_true, if_true, if_false]
                refine ⟨_, rfl, Or.inr (Or.inr (Or.inr (Or.inr (Or.inl
                  ⟨?_, Or.inl ?_, ?_, f, "ai_fn must return a dict", ?_, ?_, Or.inl ⟨v, ?_, ?_, ?_⟩, ?_⟩))))⟩ <;>
                  first | rfl | trivial | exact h1 | exact h2 | exact h3 | exact hf | exact hd
            | error ex =>
              simp only [eq_self_iff_true, Bool.false_eq_true, if_true, if_false]
              refine ⟨_, rfl, Or.inr (Or.inr (Or.inr (Or.inr (Or.inl
                ⟨?_, Or.inl ?_, ?_, f, ex, ?_, ?_, Or.inr ?_, ?_⟩))))⟩ <;>
                first | rfl | trivial | exact h1 | exact h2 | exact h3 | exact hf
    case neg =>
      have e2f : (rulesRawErrors req).isEmpty = false := (isEmptyFalse _).mpr h2
      by_cases hs : pyTruthy (strictCfg cfg) = true
      case pos =>
        rw [e1t, e2f, hs]
        simp only [Bool.not_true, Bool.not_false, Bool.false_and, Bool.true_and, Bool.and_false,
          Bool.and_true, eq_self_iff_true, Bool.false_eq_true, if_true, if_false]
        refine ⟨_, rfl, Or.inr (Or.inl ⟨?_, ?_, ?_, ?_⟩)⟩ <;>
          first | rfl | trivial | exact h1 | exact h2
      case neg =>
        have hs' : pyTruthy (strictCfg cfg) = false := by
          cases hv : pyTruthy (strictCfg cfg)
          · rfl
          · exact absurd hv hs
        by_cases h3 : guardrailsRawErrors req = []
        case neg =>
          have e3f : (guardrailsRawErrors req).isEmpty = false := (isEmptyFalse _).mpr h3
          rw [e1t, e2f, hs', e3f]
          simp only [Bool.not_true, Bool.not_false, Bool.false_and, Bool.true_and, Bool.and_false,
            Bool.and_true, eq_self_iff_true, Bool.false_eq_true, if_true, if_false]
          refine ⟨_, rfl, Or.inr (Or.inr (Or.inl ⟨?_, Or.inr ?_, ?_, ?_⟩))⟩ <;>
            first | rfl | trivial | exact h1 | exact h3
        case pos =>
          have e3t : (guardrailsRawErrors req).isEmpty = true := (isEmptyTrue _).mpr h3
          rw [e1t, e2f, hs', e3t]
          cases aifn with
          | none =>
            simp only [Bool.not_true, Bool.not_false, Bool.false_and, Bool.true_and,
              Bool.and_false, Bool.and_true, eq_self_iff_true, Bool.false_eq_true, if_true,
              if_false]
            refine ⟨_, rfl, Or.inr (Or.inr (Or.inr (Or.inr (Or.inr
              ⟨?_, Or.inr ?_, ?_, Or.inl ?_, ?_⟩))))⟩ <;>
              first | rfl | trivial | exact h1 | exact h3
          | some f =>
            cases hE : pyTruthy (enableAiCfg cfg) with
            | false =>
              simp only [Bool.not_true, Bool.not_false, Bool.false_and, Bool.true_and,
                Bool.and_false, Bool.and_true, eq_self_iff_true, Bool.false_eq_true, if_true,
                if_false]
              refine ⟨_, rfl, Or.inr (Or.inr (Or.inr (Or.inr (Or.inr
                ⟨?_, Or.inr ?_, ?_, Or.inr ?_, ?_⟩))))⟩ <;>
                first | rfl | trivial | exact h1 | exact h3
            | true =>
              simp only [Bool.not_true, Bool.not_false, Bool.false_and, Bool.true_and,
                Bool.and_false, Bool.and_true, eq_self_iff_true, Bool.false_eq_true, if_true,
                if_false]
              cases hf : f (.dict (payloadAfterGuardrails req)) with
              | ok v =>
                simp only [eq_self_iff_true, Bool.false_eq_true, if_true, if_false]
                cases hd : v.isDict with
                | true =>
                  simp only [eq_self_iff_true, Bool.false_eq_true, if_true, if_false]
                  refine ⟨_, rfl, Or.inr (Or.inr (Or.inr (Or.inl
                    ⟨?_, Or.inr ?_, ?_, f, v, ?_, ?_, ?_, ?_, ?_⟩)))⟩ <;>
                    first | rfl | trivial | exact h1 | exact h3 | exact hf | exact hd
                | false =>
                  simp only [eq_self_iff_true, Bool.false_eq_true, if_true, if_false]
                  refine ⟨_, rfl, Or.inr (Or.inr (Or.inr (Or.inr (Or.inl
                    ⟨?_, Or.inr ?_, ?_, f, "ai_fn must return a dict", ?_, ?_, Or.inl ⟨v, ?_, ?_, ?_⟩, ?_⟩))))⟩ <;>
                    first | rfl | trivial | exact h1 | exact h3 | exact hf | exact hd
              | error ex =>
                simp only [eq_self_iff_true, Bool.false_eq_true, if_true, if_false]
                refine ⟨_, rfl, Or.inr (Or.inr (Or.inr (Or.inr (Or.inl
                  ⟨?_, Or.inr ?_, ?_, f, ex, ?_, ?_, Or.inr ?_, ?_⟩))))⟩ <;>
                  first | rfl | trivial | exact h1 | exact h3 | exact hf

/-- A value with `isDict = true` is a dict. -/
theorem isDictExists {v : PyVal} (h : v.isDict = true) : ∃ kvs, v = .dict kvs := by
  cases v <;> simp [PyVal.isDict] at h ⊢

/-- Every record produced by the orchestrator's blocking rewrite carries
that stage's code. -/
theorem mem_block_code (c : String) (l : List ErrorRecord) (e : ErrorRecord)
    (he : e ∈ l.map (block_error c)) : e.code = c := by
  obtain ⟨a, -, rfl⟩ := List.mem_map.mp he
  rfl

/-- C6: after `run(request, ...)` returns, the caller's original request
mapping is unchanged — the orchestrator copies the request
(`payload = request.copy()`) and no statement writes through the caller's
reference, so the state-passing translation returns the request contents
equal to the original at every return site (and `run` never raises with
the concrete collaborators). -/
theorem run_never_mutates_request (req : Dict) (aifn : Option AiFun) (cfg : Option Dict) :
    ∃ r : Result, run req aifn cfg = some (req, r) := by
  obtain ⟨r, hr, -⟩ := run_scenarios req aifn cfg
  exact ⟨r, hr⟩

/-- C9: the `data` field of every Result `run` returns is a mapping and
never null — every return path stores the current payload, which the
concrete collaborators keep a dict. -/
theorem run_data_is_always_dict (req : Dict) (aifn : Option AiFun) (cfg : Option Dict) :
    ∃ r kvs, run req aifn cfg = some (req, r) ∧ r.data = some (PyVal.dict kvs) := by
  obtain ⟨r, hr, hsc⟩ := run_scenarios req aifn cfg
  rcases hsc with ⟨-, rfl⟩ | ⟨-, -, -, rfl⟩ | ⟨-, -, -, rfl⟩
    | ⟨-, -, -, f, v, -, -, -, hd, rfl⟩ | ⟨-, -, -, f, msg, -, -, -, rfl⟩ | ⟨-, -, -, -, rfl⟩
  · exact ⟨_, payloadAfterSchema req, hr, rfl⟩
  · exact ⟨_, payloadAfterRules req, hr, rfl⟩
  · exact ⟨_, payloadAfterGuardrails req, hr, rfl⟩
  · obtain ⟨kvs, rfl⟩ := isDictExists hd
    exact ⟨_, kvs, hr, rfl⟩
  · exact ⟨_, payloadAfterGuardrails req, hr, rfl⟩
  · exact ⟨_, payloadAfterGuardrails req, hr, rfl⟩

/-- C10: all error records in a returned Result carry one and the same
code, drawn from the four stage codes: only the blocking stage contributes
records and the orchestrator overwrites each record's code. -/
theorem run_errors_single_stage_code (req : Dict) (aifn : Option AiFun) (cfg : Option Dict)
    (req' : Dict) (r : Result) (h : run req aifn cfg = some (req', r)) :
    (∀ e ∈ r.errors,
      e.code = "schema_error" ∨ e.code = "rule_violation" ∨ e.code = "guardrail_block" ∨
        e.code = "ai_error") ∧
    (∀ e ∈ r.errors, ∀ e' ∈ r.errors, e.code = e'.code) := by
  obtain ⟨r0, hr, hsc⟩ := run_scenarios req aifn cfg
  rw [h] at hr
  obtain ⟨-, rfl⟩ : req' = req ∧ r = r0 := by
    have := Option.some.inj hr
    exact ⟨congrArg Prod.fst this, congrArg Prod.snd this⟩
  rcases hsc with ⟨-, rfl⟩ | ⟨-, -, -, rfl⟩ | ⟨-, -, -, rfl⟩
    | ⟨-, -, -, f, v, -, -, -, -, rfl⟩ | ⟨-, -, -, f, msg, -, -, -, rfl⟩ | ⟨-, -, -, -, rfl⟩
  · refine ⟨fun e he => Or.inl (mem_block_code _ _ _ he), fun e he e' he' => ?_⟩
    rw [mem_block_code _ _ _ he, mem_block_code _ _ _ he']
  · refine ⟨fun e he => Or.inr (Or.inl (mem_block_code _ _ _ he)), fun e he e' he' => ?_⟩
    rw [mem_block_code _ _ _ he, mem_block_code _ _ _ he']
  · refine ⟨fun e he => Or.inr (Or.inr (Or.inl (mem_block_code _ _ _ he))),
      fun e he e' he' => ?_⟩
    rw [mem_block_code _ _ _ he, mem_block_code _ _ _ he']
  · simp
  · simp
  · simp

/-- C2: the step names in the trace are exactly a prefix of
`["schema", "rules", "guardrails", "ai"]`: one entry per stage attempted
in order, a successful run has all four, and a blocked run's trace ends at
the blocking stage (whose entry is marked not ok). -/
theorem run_trace_stage_names (req : Dict) (aifn : Option AiFun) (cfg : Option Dict) :
    ∃ r, run req aifn cfg = some (req, r) ∧
      (∃ n, 1 ≤ n ∧ n ≤ 4 ∧
        r.trace.map TraceEntry.step = (["schema", "rules", "guardrails", "ai"]).take n) ∧
      (r.ok = true → r.trace.map TraceEntry.step = ["schema", "rules", "guardrails", "ai"]) ∧
      (r.ok = false → ∃ t, r.trace.getLast? = some t ∧ t.ok = false) := by
  obtain ⟨r, hr, hsc⟩ := run_scenarios req aifn cfg
  rcases hsc with ⟨-, rfl⟩ | ⟨-, -, -, rfl⟩ | ⟨-, -, -, rfl⟩
    | ⟨-, -, -, f, v, -, -, -, -, rfl⟩ | ⟨-, -, -, f, msg, -, -, -, rfl⟩ | ⟨-, -, -, -, rfl⟩
  · exact ⟨_, hr, ⟨1, by simp [step_trace]⟩, by simp [step_trace], fun _ => ⟨_, rfl, rfl⟩⟩
  · exact ⟨_, hr, ⟨2, by simp [step_trace]⟩, by simp [step_trace], fun _ => ⟨_, rfl, rfl⟩⟩
  · exact ⟨_, hr, ⟨3, by simp [step_trace]⟩, by simp [step_trace], fun _ => ⟨_, rfl, rfl⟩⟩
  · exact ⟨_, hr, ⟨4, by simp [step_trace]⟩, fun _ => by simp [step_trace],
      by simp [step_trace]⟩
  · exact ⟨_, hr, ⟨4, by simp [step_trace]⟩, by simp [step_trace], fun _ => ⟨_, rfl, rfl⟩⟩
  · exact ⟨_, hr, ⟨4, by simp [step_trace]⟩, fun _ => by simp [step_trace],
      by simp [step_trace]⟩


/-- `terminal_payload` when the schema stage blocks. -/
theorem tp_schema_blocked (req : Dict) (aifn : Option AiFun) (cfg : Option Dict)
    (h1 : schemaRawErrors req ≠ []) :
    terminal_payload req aifn cfg = .dict (payloadAfterSchema req) := by
  unfold terminal_payload
  rw [(isEmptyFalse _).mpr h1]
  simp only [Bool.not_false, eq_self_iff_true, if_true]

/-- `terminal_payload` when the rules stage blocks under strict mode. -/
theorem tp_rules_blocked (req : Dict) (aifn : Option AiFun) (cfg : Option Dict)
    (h1 : schemaRawErrors req = []) (h2 : rulesRawErrors req ≠ [])
    (hs : pyTruthy (strictCfg cfg) = true) :
    terminal_payload req aifn cfg = .dict (payloadAfterRules req) := by
  unfold terminal_payload
  rw [(isEmptyTrue _).mpr h1, (isEmptyFalse _).mpr h2, hs]
  simp only [Bool.not_true, Bool.not_false, Bool.true_and, Bool.false_eq_true, if_false,
    eq_self_iff_true, if_true]

/-- `terminal_payload` when the guardrails stage blocks. -/
theorem tp_guard_blocked (req : Dict) (aifn : Option AiFun) (cfg : Option Dict)
    (h1 : schemaRawErrors req = []) (hors : rulesRawErrors req = [] ∨
      pyTruthy (strictCfg cfg) = false) (h3 : guardrailsRawErrors req ≠ []) :
    terminal_payload req aifn cfg = .dict (payloadAfterGuardrails req) := by
  unfold terminal_payload
  rcases hors with h2 | hsF
  · rw [(isEmptyTrue _).mpr h1, (isEmptyTrue _).mpr h2, (isEmptyFalse _).mpr h3]
    simp only [Bool.not_true, Bool.not_false, Bool.false_and, Bool.false_eq_true, if_false,
      eq_self_iff_true, if_true]
  · rw [(isEmptyTrue _).mpr h1, hsF, (isEmptyFalse _).mpr h3]
    simp only [Bool.not_true, Bool.not_false, Bool.and_false, Bool.false_eq_true, if_false,
      eq_self_iff_true, if_true]

/-- `terminal_payload` when every stage passes and the transform returns a
dict: the transform's payload. -/
theorem tp_ai_ok (req : Dict) (cfg : Option Dict) (f : AiFun) (v : PyVal)
    (h1 : schemaRawErrors req = []) (hors : rulesRawErrors req = [] ∨
      pyTruthy (strictCfg cfg) = false) (h3 : guardrailsRawErrors req = [])
    (hE : pyTruthy (enableAiCfg cfg) = true)
    (hfv : f (.dict (payloadAfterGuardrails req)) = .ok v) (hd : v.isDict = true) :
    terminal_payload req (some f) cfg = v := by
  unfold terminal_payload
  rcases hors with h2 | hsF
  · rw [(isEmptyTrue _).mpr h1, (isEmptyTrue _).mpr h2, (isEmptyTrue _).mpr h3, hE]
    simp only [Bool.not_true, Bool.false_and, Bool.false_eq_true, if_false]
    rw [hfv]
    simp only [hd, eq_self_iff_true, if_true]
  · rw [(isEmptyTrue _).mpr h1, hsF, (isEmptyTrue _).mpr h3, hE]
    simp only [Bool.not_true, Bool.not_false, Bool.and_false, Bool.false_eq_true, if_false]
    rw [hfv]
    simp only [hd, eq_self_iff_true, if_true]

/-- `terminal_payload` when the transform returns a non-dict: the pre-AI
payload. -/
theorem tp_ai_nondict (req : Dict) (cfg : Option Dict) (f : AiFun) (v : PyVal)
    (h1 : schemaRawErrors req = []) (hors : rulesRawErrors req = [] ∨
      pyTruthy (strictCfg cfg) = false) (h3 : guardrailsRawErrors req = [])
    (hE : pyTruthy (enableAiCfg cfg) = true)
    (hfv : f (.dict (payloadAfterGuardrails req)) = .ok v) (hd : v.isDict = false) :
    terminal_payload req (some f) cfg = .dict (payloadAfterGuardrails req) := by
  unfold terminal_payload
  rcases hors with h2 | hsF
  · rw [(isEmptyTrue _).mpr h1, (isEmptyTrue _).mpr h2, (isEmptyTrue _).mpr h3, hE]
    simp only [Bool.not_true, Bool.false_and, Bool.false_eq_true, if_false]
    rw [hfv]
    simp only [hd, Bool.false_eq_true, if_false]
  · rw [(isEmptyTrue _).mpr h1, hsF, (isEmptyTrue _).mpr h3, hE]
    simp only [Bool.not_true, Bool.not_false, Bool.and_false, Bool.false_eq_true, if_false]
    rw [hfv]
    simp only [hd, Bool.false_eq_true, if_false]

/-- `terminal_payload` when the transform raises: the pre-AI payload. -/
theorem tp_ai_raised (req : Dict) (cfg : Option Dict) (f : AiFun) (ex : String)
    (h1 : schemaRawErrors req = []) (hors : rulesRawErrors req = [] ∨
      pyTruthy (strictCfg cfg) = false) (h3 : guardrailsRawErrors req = [])
    (hE : pyTruthy (enableAiCfg cfg) = true)
    (herr : f (.dict (payloadAfterGuardrails req)) = .error ex) :
    terminal_payload req (some f) cfg = .dict (payloadAfterGuardrails req) := by
  unfold terminal_payload
  rcases hors with h2 | hsF
  · rw [(isEmptyTrue _).mpr h1, (isEmptyTrue _).mpr h2, (isEmptyTrue _).mpr h3, hE]
    simp only [Bool.not_true, Bool.false_and, Bool.false_eq_true, if_false]
    rw [herr]
  · rw [(isEmptyTrue _).mpr h1, hsF, (isEmptyTrue _).mpr h3, hE]
    simp only [Bool.not_true, Bool.not_false, Bool.and_false, Bool.false_eq_true, if_false]
    rw [herr]

/-- `terminal_payload` when the AI stage is skipped: the guardrails
payload. -/
theorem tp_ai_skipped (req : Dict) (aifn : Option AiFun) (cfg : Option Dict)
    (h1 : schemaRawErrors req = []) (hors : rulesRawErrors req = [] ∨
      pyTruthy (strictCfg cfg) = false) (h3 : guardrailsRawErrors req = [])
    (hai : aifn = Option.none ∨ pyTruthy (enableAiCfg cfg) = false) :
    terminal_payload req aifn cfg = .dict (payloadAfterGuardrails req) := by
  unfold terminal_payload
  rcases hors with h2 | hsF
  · rw [(isEmptyTrue _).mpr h1, (isEmptyTrue _).mpr h2, (isEmptyTrue _).mpr h3]
    simp only [Bool.not_true, Bool.false_and, Bool.false_eq_true, if_false]
    rcases hai with rfl | hE
    · cases pyTruthy (enableAiCfg cfg) <;> rfl
    · rw [hE]
      cases aifn <;> rfl
  · rw [(isEmptyTrue _).mpr h1, hsF, (isEmptyTrue _).mpr h3]
    simp only [Bool.not_true, Bool.not_false, Bool.and_false, Bool.false_eq_true, if_false]
    rcases hai with rfl | hE
    · cases pyTruthy (enableAiCfg cfg) <;> rfl
    · rw [hE]
      cases aifn <;> rfl

/-- C1: `ok` is true iff `errors` is empty and all four stages ran without
blocking (equivalently: the trace carries all four step names), and `data`
holds the latest payload at the point of termination. -/
theorem run_result_invariant (req : Dict) (aifn : Option AiFun) (cfg : Option Dict) :
    ∃ r, run req aifn cfg = some (req, r) ∧
      (r.ok = true ↔
        (r.errors = [] ∧ r.trace.map TraceEntry.step = ["schema", "rules", "guardrails", "ai"])) ∧
      r.data = some (terminal_payload req aifn cfg) := by
  obtain ⟨r, hr, hsc⟩ := run_scenarios req aifn cfg
  rcases hsc with ⟨h1, rfl⟩ | ⟨h1, h2, hs, rfl⟩ | ⟨h1, hors, h3, rfl⟩
    | ⟨h1, hors, h3, f, v, haf, hE, hfv, hd, rfl⟩
    | ⟨h1, hors, h3, f, msg, haf, hE, hfail, rfl⟩ | ⟨h1, hors, h3, hai, rfl⟩
  · refine ⟨_, hr, ?_, ?_⟩
    · have herr : schemaErrors req ≠ [] := by simp [schemaErrors, h1]
      exact ⟨fun hok => Bool.noConfusion hok, fun ⟨he, _⟩ => absurd he herr⟩
    · rw [tp_schema_blocked req aifn cfg h1]
  · refine ⟨_, hr, ?_, ?_⟩
    · have herr : ruleErrors req ≠ [] := by simp [ruleErrors, h2]
      exact ⟨fun hok => Bool.noConfusion hok, fun ⟨he, _⟩ => absurd he herr⟩
    · rw [tp_rules_blocked req aifn cfg h1 h2 hs]
  · refine ⟨_, hr, ?_, ?_⟩
    · have herr : guardErrors req ≠ [] := by simp [guardErrors, h3]
      exact ⟨fun hok => Bool.noConfusion hok, fun ⟨he, _⟩ => absurd he herr⟩
    · rw [tp_guard_blocked req aifn cfg h1 hors h3]
  · refine ⟨_, hr, by simp [step_trace], ?_⟩
    subst haf
    rw [tp_ai_ok req cfg f v h1 hors h3 hE hfv hd]
  · refine ⟨_, hr, ?_, ?_⟩
    · exact ⟨fun hok => Bool.noConfusion hok, fun ⟨he, _⟩ => List.noConfusion he⟩
    · subst haf
      rcases hfail with ⟨v, hfv, hd, -⟩ | herr
      · rw [tp_ai_nondict req cfg f v h1 hors h3 hE hfv hd]
      · rw [tp_ai_raised req cfg f msg h1 hors h3 hE herr]
  · refine ⟨_, hr, by simp [step_trace], ?_⟩
    rw [tp_ai_skipped req aifn cfg h1 hors h3 hai]

/-- C8: calling `run` twice with an identical request, transform and
configuration yields identical Results — the collaborators and the
transform are deterministic pure functions and the first run hands the
request object back unchanged, so a second run starting from it agrees. -/
theorem run_idempotent (req : Dict) (aifn : Option AiFun) (cfg : Option Dict)
    (req' : Dict) (r1 : Result) (h : run req aifn cfg = some (req', r1)) :
    ∃ r2, run req' aifn cfg = some (req', r2) ∧ r2 = r1 := by
  obtain ⟨r0, hr, -⟩ := run_scenarios req aifn cfg
  rw [h] at hr
  have hreq : req' = req := congrArg Prod.fst (Option.some.inj hr)
  subst hreq
  exact ⟨r1, h, rfl⟩

/-- C3: when the AI stage is enabled, reached, and the transform raises or
returns a non-mapping, `run` does not propagate the failure: it returns a
blocked Result with a final `{step: "ai", ok: false, info: {called: true}}`
trace entry, a single `ai_error` record carrying the failure description,
and `data` equal to the pre-AI payload. -/
theorem run_ai_failure_boundary (req : Dict) (cfg : Option Dict) (f : AiFun)
    (hE : pyTruthy (enableAiCfg cfg) = true)
    (h1 : schemaRawErrors req = [])
    (hors : rulesRawErrors req = [] ∨ pyTruthy (strictCfg cfg) = false)
    (h3 : guardrailsRawErrors req = [])
    (hfail : (∃ v, f (.dict (payloadAfterGuardrails req)) = .ok v ∧ v.isDict = false) ∨
      (∃ ex, f (.dict (payloadAfterGuardrails req)) = .error ex)) :
    ∃ r, run req (some f) cfg = some (req, r) ∧
      r.ok = false ∧
      r.data = some (.dict (payloadAfterGuardrails req)) ∧
      (∀ v, f (.dict (payloadAfterGuardrails req)) = .ok v → v.isDict = false →
        r.errors = [{ code := "ai_error", message := "ai_fn must return a dict",
                      details := .dict [] }]) ∧
      (∀ ex, f (.dict (payloadAfterGuardrails req)) = .error ex →
        r.errors = [{ code := "ai_error", message := ex, details := .dict [] }]) ∧
      r.trace.map TraceEntry.step = ["schema", "rules", "guardrails", "ai"] ∧
      r.trace.getLast? = some ⟨"ai", false, [("called", .bool true)]⟩ := by
  rw [run_unfold]
  rcases hors with h2 | hsF
  · rw [(isEmptyTrue _).mpr h1, (isEmptyTrue _).mpr h2, (isEmptyTrue _).mpr h3, hE]
    simp only [Bool.not_true, Bool.false_and, Bool.false_eq_true, if_false]
    rcases hfail with ⟨v, hfv, hd⟩ | ⟨ex, herr⟩
    · rw [hfv]
      simp only [hd, Bool.false_eq_true, if_false]
      refine ⟨_, rfl, rfl, rfl, fun _ _ _ => rfl,
        fun ex hex => Except.noConfusion hex, by simp [step_trace], rfl⟩
    · rw [herr]
      refine ⟨_, rfl, rfl, rfl,
        fun v hv _ => Except.noConfusion hv,
        fun ex' hex' => ?_, by simp [step_trace], rfl⟩
      rw [Except.error.inj hex']
  · rw [(isEmptyTrue _).mpr h1, hsF, (isEmptyTrue _).mpr h3, hE]
    simp only [Bool.not_true, Bool.not_false, Bool.and_false, Bool.false_eq_true, if_false]
    rcases hfail with ⟨v, hfv, hd⟩ | ⟨ex, herr⟩
    · rw [hfv]
      simp only [hd, Bool.false_eq_true, if_false]
      refine ⟨_, rfl, rfl, rfl, fun _ _ _ => rfl,
        fun ex hex => Except.noConfusion hex, by simp [step_trace], rfl⟩
    · rw [herr]
      refine ⟨_, rfl, rfl, rfl,
        fun v hv _ => Except.noConfusion hv,
        fun ex' hex' => ?_, by simp [step_trace], rfl⟩
      rw [Except.error.inj hex']

/-- C5: a non-empty rules error list under `strict = false` does not
block: the pipeline continues to guardrails with the rules stage's
payload, the rule errors are discarded from the final error list, and with
otherwise passing stages (guardrails clean, AI disabled) the Result is
`ok = true` with an empty error list and a full four-entry trace whose
rules entry alone is flagged not ok. -/
theorem run_non_strict_rules_pass (req : Dict) (aifn : Option AiFun) (cfg : Option Dict)
    (h1 : schemaRawErrors req = [])
    (h2 : rulesRawErrors req ≠ [])
    (hsF : pyTruthy (strictCfg cfg) = false)
    (h3 : guardrailsRawErrors req = [])
    (hE : pyTruthy (enableAiCfg cfg) = false) :
    ∃ r, run req aifn cfg = some (req, r) ∧
      r.ok = true ∧ r.errors = [] ∧
      r.trace.map (fun t => (t.step, t.ok)) =
        [("schema", true), ("rules", false), ("guardrails", true), ("ai", true)] ∧
      r.data = some (.dict (payloadAfterGuardrails req)) := by
  rw [run_unfold]
  rw [(isEmptyTrue _).mpr h1, (isEmptyFalse _).mpr h2, hsF, (isEmptyTrue _).mpr h3, hE]
  simp only [Bool.not_true, Bool.not_false, Bool.and_false, Bool.false_eq_true, if_false,
    Bool.true_and, Bool.false_and]
  cases aifn with
  | none => exact ⟨_, rfl, rfl, rfl, by simp [step_trace], rfl⟩
  | some f => exact ⟨_, rfl, rfl, rfl, by simp [step_trace], rfl⟩

/-- The interpretation implemented by `interpret_out` satisfies the
five-shape contract for every possible return value. -/
theorem interp_spec_holds (mod : PyModule) (fname : String) (out : PyVal) :
    interp_shape_spec mod fname out (interpret_out mod fname out).1
      (interpret_out mod fname out).2 := by
  unfold interp_shape_spec
  cases out with
  | str s =>
    refine Or.inr (Or.inr (Or.inr (Or.inr ⟨fun a b h => PyVal.noConfusion h,
      fun xs h => PyVal.noConfusion h, fun kvs h => PyVal.noConfusion h,
      fun h => PyVal.noConfusion h, rfl, rfl⟩)))
  | int n =>
    refine Or.inr (Or.inr (Or.inr (Or.inr ⟨fun a b h => PyVal.noConfusion h,
      fun xs h => PyVal.noConfusion h, fun kvs h => PyVal.noConfusion h,
      fun h => PyVal.noConfusion h, rfl, rfl⟩)))
  | bool b =>
    refine Or.inr (Or.inr (Or.inr (Or.inr ⟨fun a b h => PyVal.noConfusion h,
      fun xs h => PyVal.noConfusion h, fun kvs h => PyVal.noConfusion h,
      fun h => PyVal.noConfusion h, rfl, rfl⟩)))
  | none =>
    exact Or.inr (Or.inr (Or.inr (Or.inl ⟨rfl, rfl, rfl⟩)))
  | list xs =>
    exact Or.inr (Or.inl ⟨fun a b h => PyVal.noConfusion h, xs, rfl, rfl, rfl⟩)
  | dict kvs =>
    exact Or.inr (Or.inr (Or.inl ⟨kvs, rfl, rfl, rfl⟩))
  | tuple xs =>
    match xs with
    | [] =>
      refine Or.inr (Or.inr (Or.inr (Or.inr ⟨fun a b h => ?_,
        fun xs h => PyVal.noConfusion h, fun kvs h => PyVal.noConfusion h,
        fun h => PyVal.noConfusion h, rfl, rfl⟩)))
      injection h with h'
      exact List.noConfusion h'
    | [a0] =>
      refine Or.inr (Or.inr (Or.inr (Or.inr ⟨fun a b h => ?_,
        fun xs h => PyVal.noConfusion h, fun kvs h => PyVal.noConfusion h,
        fun h => PyVal.noConfusion h, rfl, rfl⟩)))
      injection h with h'
      injection h' with _ h''
      exact List.noConfusion h''
    | [a0, b0] =>
      exact Or.inl ⟨a0, b0, rfl, rfl, rfl⟩
    | a0 :: b0 :: c0 :: t0 =>
      refine Or.inr (Or.inr (Or.inr (Or.inr ⟨fun a b h => ?_,
        fun xs h => PyVal.noConfusion h, fun kvs h => PyVal.noConfusion h,
        fun h => PyVal.noConfusion h, rfl, rfl⟩)))
      injection h with h'
      injection h' with _ h''
      injection h'' with _ h'''
      exact List.noConfusion h'''

/-- C4: the stage invoker interprets the resolved function's return value
under exactly five shapes, checked in the source's priority order, and
returns the interpretation with its raw errors normalized under code
`layer_error` and the resolved name recorded in `meta`. -/
theorem call_layer_five_shapes (mod : PyModule) (fname : String) (rest : List String)
    (payload : PyVal) (fn : PyVal → Option PyVal) (out : PyVal)
    (hfn : mod.getattr fname = some fn) (hout : fn payload = some out) :
    ∃ np raw, interpret_out mod fname out = (np, raw) ∧
      call_layer mod (fname :: rest) payload =
        (normalize_errors raw "layer_error" fname).map
          (fun errors => (np, errors, [("called", PyVal.str fname)])) ∧
      interp_shape_spec mod fname out np raw := by
  refine ⟨(interpret_out mod fname out).1, (interpret_out mod fname out).2, rfl, ?_,
    interp_spec_holds mod fname out⟩
  unfold call_layer
  simp only [hfn, hout, Option.bind]

/-- C7: the error normalizer yields one record per input element in input
order (no deduplication); a structured entry keeps its (string-coerced)
`code`/`message` with the stated defaults and its explicit `details`, or
details synthesized from every other key; a plain string becomes a record
with the default code, the string as message, and `{step: step_name}`
details. -/
theorem normalize_errors_spec (es : List PyVal) (dc sn : String) :
    normalize_errors (.list es) dc sn = some (es.map (normalize_one dc sn)) ∧
    (∀ s, normalize_one dc sn (.str s) =
      { code := dc, message := s, details := .dict [("step", .str sn)] }) ∧
    (∀ ed, dictHasKey ed "details" = true →
      normalize_one dc sn (.dict ed) =
        { code := pyStr ((dictGet ed "code").getD (.str dc)),
          message := pyStr ((dictGet ed "message").getD (.str "Error")),
          details := dictGetD ed "details" .none }) ∧
    (∀ ed, dictHasKey ed "details" = false →
      normalize_one dc sn (.dict ed) =
        { code := pyStr ((dictGet ed "code").getD (.str dc)),
          message := pyStr ((dictGet ed "message").getD (.str "Error")),
          details := .dict (details_from_extras ed) }) := by
  refine ⟨rfl, fun s => rfl, fun ed hk => ?_, fun ed hk => ?_⟩
  · simp only [Engine.normalize_one]
    rw [hk]
    simp only [eq_self_iff_true, if_true]
  · simp only [Engine.normalize_one]
    rw [hk]
    simp only [Bool.false_eq_true, if_false]

/-- Witness for the AI failure boundary: a transform returning a
non-mapping on a clean request yields the blocked `ai_error` Result. -/
theorem run_ai_failure_boundary_witness :
    ∃ r, run [("action", PyVal.str "read")]
        (some (fun _ => Except.ok (PyVal.str "nope")))
        (some [("enable_ai", PyVal.bool true)]) =
      some ([("action", PyVal.str "read")], r) ∧
      r.ok = false ∧
      r.data = some (.dict (payloadAfterGuardrails [("action", PyVal.str "read")])) ∧
      (∀ v, (Except.ok (PyVal.str "nope") : Except String PyVal) = Except.ok v →
        v.isDict = false →
        r.errors = [{ code := "ai_error", message := "ai_fn must return a dict",
                      details := .dict [] }]) ∧
      (∀ ex, (Except.ok (PyVal.str "nope") : Except String PyVal) = Except.error ex →
        r.errors = [{ code := "ai_error", message := ex, details := .dict [] }]) ∧
      r.trace.map TraceEntry.step = ["schema", "rules", "guardrails", "ai"] ∧
      r.trace.getLast? = some ⟨"ai", false, [("called", .bool true)]⟩ :=
  run_ai_failure_boundary [("action", PyVal.str "read")]
    (some [("enable_ai", PyVal.bool true)]) (fun _ => Except.ok (PyVal.str "nope"))
    (by rfl) schemaRaw_read (Or.inl rulesRaw_read) guardRaw_read
    (Or.inl ⟨PyVal.str "nope", rfl, rfl⟩)

/-- Witness for the non-strict rules pass: a user `delete` request under
`strict = false` succeeds with a clean error list and full trace. -/
theorem run_non_strict_rules_pass_witness :
    ∃ r, run [("role", PyVal.str "user"), ("action", PyVal.str "delete"),
        ("prompt", PyVal.str "hello")] Option.none (some [("strict", PyVal.bool false)]) =
      some ([("role", PyVal.str "user"), ("action", PyVal.str "delete"),
        ("prompt", PyVal.str "hello")], r) ∧
      r.ok = true ∧ r.errors = [] ∧
      r.trace.map (fun t => (t.step, t.ok)) =
        [("schema", true), ("rules", false), ("guardrails", true), ("ai", true)] ∧
      r.data = some (.dict (payloadAfterGuardrails
        [("role", PyVal.str "user"), ("action", PyVal.str "delete"),
         ("prompt", PyVal.str "hello")])) :=
  run_non_strict_rules_pass
    [("role", PyVal.str "user"), ("action", PyVal.str "delete"), ("prompt", PyVal.str "hello")]
    Option.none (some [("strict", PyVal.bool false)])
    schemaRaw_delete ((isEmptyFalse _).mp rulesRaw_delete) (by rfl) guardRaw_delete (by rfl)

/-- Witness for the five-shape contract: a collaborator returning the
unexpected value `7` yields the synthetic `layer_error`. -/
theorem call_layer_five_shapes_witness :
    ∃ np raw,
      interpret_out ⟨"m", [("f", fun _ => some (PyVal.int 7))]⟩ "f" (PyVal.int 7) = (np, raw) ∧
      call_layer ⟨"m", [("f", fun _ => some (PyVal.int 7))]⟩ ["f"] (PyVal.dict []) =
        (normalize_errors raw "layer_error" "f").map
          (fun errors => (np, errors, [("called", PyVal.str "f")])) ∧
      interp_shape_spec ⟨"m", [("f", fun _ => some (PyVal.int 7))]⟩ "f" (PyVal.int 7) np raw :=
  call_layer_five_shapes ⟨"m", [("f", fun _ => some (PyVal.int 7))]⟩ "f" [] (PyVal.dict [])
    (fun _ => some (PyVal.int 7)) (PyVal.int 7) (by rfl) (by rfl)

/-- Witness for the normalizer spec: a structured entry with an `int` code
and an extra key is coerced and its details synthesized. -/
theorem normalize_errors_spec_witness :
    normalize_one "layer_error" "rules"
        (.dict [("code", PyVal.int 7), ("extra", PyVal.bool true)]) =
      { code := "7", message := "Error", details := .dict [("extra", PyVal.bool true)] } := by
  rw [(normalize_errors_spec [] "layer_error" "rules").2.2.2
    [("code", PyVal.int 7), ("extra", PyVal.bool true)] (by rfl)]
  rfl

/-- Witness for idempotence: re-running the empty request reproduces the
schema-blocked Result. -/
theorem run_idempotent_witness :
    ∃ r2, run [] Option.none Option.none = some ([], r2) ∧ r2 = emptyRequestResult :=
  run_idempotent [] Option.none Option.none [] emptyRequestResult run_empty_request

/-- Witness for the single-code invariant on a schema-blocked run. -/
theorem run_errors_single_stage_code_witness :
    (∀ e ∈ emptyRequestResult.errors,
      e.code = "schema_error" ∨ e.code = "rule_violation" ∨ e.code = "guardrail_block" ∨
        e.code = "ai_error") ∧
    (∀ e ∈ emptyRequestResult.errors, ∀ e' ∈ emptyRequestResult.errors, e.code = e'.code) :=
  run_errors_single_stage_code [] Option.none Option.none [] emptyRequestResult
    run_empty_request
